import Mathlib

/-!
Shallow embedding of `src/change_impact_simulator_server.py` from the
mcp-change-impact-simulator repository, together with theorems settling the
specification claims about it.

Python dictionaries coming from YAML configuration are modelled as association
lists (`List (String × _)`) preserving insertion order, since the source relies
on dict iteration order for first-match-wins classification.  Optional dict
fields accessed with `.get(key, default)` are modelled as `Option` fields with
the default applied at the access site, exactly as the source does.  Wall-clock
timestamps are modelled by passing the current clock reading as an explicit
`now : String` argument.
-/

namespace ChangeImpact

/-- Python `k.isPrefixOf text` on character lists: used to build substring
containment. -/
def isPrefixChars : List Char → List Char → Bool
  | [], _ => true
  | _ :: _, [] => false
  | a :: as, b :: bs => a == b && isPrefixChars as bs

/-- Containment of `k` as a contiguous run inside `l`. -/
def occursInChars (k : List Char) : List Char → Bool
  | [] => isPrefixChars k []
  | l@(_ :: t) => isPrefixChars k l || occursInChars k t

/-- Python `k in text` for strings: substring containment. -/
def strIn (k text : String) : Bool :=
  occursInChars k.data text.data

/-- Python `str.lower()`, character by character (the configuration keywords
and queries of interest are ASCII). -/
def strLower (s : String) : String :=
  ⟨s.data.map Char.toLower⟩

/-- One entry of the knowledge base (a dict with optional `title`/`content`). -/
structure KnowledgeItem where
  title : Option String
  content : Option String
  deriving Repr, DecidableEq

/-- One row of `search_knowledge`'s result list. -/
structure SearchResult where
  category : String
  title : Option String
  content : Option String
  deriving Repr, DecidableEq

/-- A change pattern dict from `change_patterns.yaml`; every field is read in
the source with `.get` and a default, hence the `Option`s. -/
structure ChangePattern where
  keywords : Option (List String)
  risk_level : Option String
  impacts : Option (List String)
  safe_conditions : Option (List String)
  safeguards : Option (List String)
  description : Option String
  example_text : Option String
  deriving Repr, DecidableEq

/-- A risk definition is an arbitrary descriptive mapping. -/
abbrev RiskDef : Type := List (String × String)

/-- The analysis dict produced by `analyze_change`.  The no-match branch and
the match branch populate different subsets of keys, so every field is an
`Option`. -/
structure Analysis where
  timestamp : Option String
  change_description : Option String
  matched_pattern : Option String
  risk_level : Option String
  impact : Option (List String)
  safe_conditions : Option (List String)
  safeguards : Option (List String)
  risk_definition : Option RiskDef
  requires_manual_review : Option Bool
  message : Option String
  recommendation : Option String
  deriving Repr, DecidableEq

/-- The summary row appended to `MetricsCollector.analyses`. -/
structure RecordedAnalysis where
  timestamp : Option String
  risk_level : Option String
  pattern : Option String
  requires_review : Option Bool
  deriving Repr, DecidableEq

/-- State of `MetricsCollector`.  The two `defaultdict(int)` counters are
association lists in key-insertion order, matching Python dict iteration. -/
structure MetricsCollector where
  analyses : List RecordedAnalysis
  risk_distribution : List (String × Nat)
  pattern_usage : List (String × Nat)
  deriving Repr, DecidableEq

/-- Increment of a `defaultdict(int)` entry: bump the existing key in place or
append it with count 1. -/
def bumpCount (k : String) : List (String × Nat) → List (String × Nat)
  | [] => [(k, 1)]
  | (k0, v) :: rest =>
    if k0 = k then (k0, v + 1) :: rest else (k0, v) :: bumpCount k rest

/-- Read a counter, 0 when the key was never touched (defaultdict semantics). -/
def countOf : List (String × Nat) → String → Nat
  | [], _ => 0
  | (k0, v) :: rest, k => if k0 = k then v else countOf rest k

/-- Embedding of `MetricsCollector.record_analysis` (lines 37-51): append a
summary row, bump the risk-distribution counter for the record's risk level
(defaulting to UNKNOWN), and bump pattern usage only when `matched_pattern` is
present and truthy. -/
def record_analysis (m : MetricsCollector) (a : Analysis) : MetricsCollector :=
  let entry : RecordedAnalysis :=
    ⟨a.timestamp, a.risk_level, a.matched_pattern, a.requires_manual_review⟩
  let risk := a.risk_level.getD "UNKNOWN"
  let usage :=
    match a.matched_pattern with
    | some p => if p = "" then m.pattern_usage else bumpCount p m.pattern_usage
    | none => m.pattern_usage
  { analyses := m.analyses ++ [entry]
    risk_distribution := bumpCount risk m.risk_distribution
    pattern_usage := usage }

/-- Whether a pattern matches the (already lowercased) text: Python
`any(k.lower() in text for k in keywords)` in `analyze_change`. -/
def patternMatches (p : ChangePattern) (text : String) : Bool :=
  (p.keywords.getD []).any fun k => strIn (strLower k) text

/-- The first-match-wins scan over the ordered pattern mapping in
`analyze_change` (lines 318-323). -/
def findMatch : List (String × ChangePattern) → String → Option (String × ChangePattern)
  | [], _ => none
  | (name, p) :: rest, text =>
    if patternMatches p text then some (name, p) else findMatch rest text

/-- Embedding of `ChangeImpactSimulatorServer.analyze_change` (lines 314-350)
as a function of the pattern store, the risk definitions, the metrics state and
the clock.  Returns the analysis dict together with the updated metrics state;
note the no-match branch returns before `record_analysis` is ever called. -/
def analyze_change (patterns : List (String × ChangePattern))
    (riskDefs : List (String × RiskDef)) (m : MetricsCollector)
    (now desc : String) : Analysis × MetricsCollector :=
  let text := strLower desc
  match findMatch patterns text with
  | none =>
    ({ timestamp := none, change_description := none, matched_pattern := none
       risk_level := some "UNKNOWN", impact := none, safe_conditions := none
       safeguards := none, risk_definition := none
       requires_manual_review := none
       message := some "Unrecognized change pattern"
       recommendation := some "Manual review required" }, m)
  | some (name, p) =>
    let risk_level := p.risk_level.getD "MEDIUM"
    let risk_def := (List.lookup risk_level riskDefs).getD []
    let analysis : Analysis :=
      { timestamp := some now, change_description := some desc
        matched_pattern := some name, risk_level := some risk_level
        impact := some (p.impacts.getD [])
        safe_conditions := some (p.safe_conditions.getD [])
        safeguards := some (p.safeguards.getD [])
        risk_definition := some risk_def
        requires_manual_review :=
          some (risk_level == "HIGH" || risk_level == "CRITICAL")
        message := none, recommendation := none }
    (analysis, record_analysis m analysis)

/-- The review-task dict returned by `create_review_task`; the two branches
populate different keys. -/
structure ReviewTask where
  task_created : Bool
  reason : Option String
  task_type : Option String
  priority : Option String
  timestamp : Option String
  change_description : Option String
  risk_level : Option String
  note : Option String
  deriving Repr, DecidableEq

/-- Embedding of `ChangeImpactSimulatorServer.create_review_task`
(lines 352-369). -/
def create_review_task (a : Analysis) (now : String) : ReviewTask :=
  let risk := a.risk_level.getD "UNKNOWN"
  if risk = "HIGH" ∨ risk = "CRITICAL" then
    { task_created := true
      reason := none
      task_type := some "MANUAL_REVIEW_REQUIRED"
      priority := some (if risk = "CRITICAL" then "HIGH" else "MEDIUM")
      timestamp := some now
      change_description := a.change_description
      risk_level := some risk
      note := some "Advisory only — no execution, no automation" }
  else
    { task_created := false
      reason := some "Risk level does not require manual review"
      task_type := none, priority := none, timestamp := none
      change_description := none, risk_level := none, note := none }

/-- One approval-stage dict from the `workflows.yaml` configuration; every
field is read with `.get` in the source. -/
structure ApprovalStage where
  name : Option String
  description : Option String
  auto_approve : Option Bool
  approvers : Option (List String)
  required_for : Option (List String)
  deriving Repr, DecidableEq

/-- One entry of the `required` list built by `get_required_approvals`. -/
structure RequiredApproval where
  stage : Option String
  description : String
  auto_approve : Bool
  approvers : List String
  deriving Repr, DecidableEq

/-- Projection of a configured stage into a `required` entry, as built inside
the loop of `get_required_approvals` (lines 89-94). -/
def toRequiredApproval (st : ApprovalStage) : RequiredApproval :=
  { stage := st.name
    description := st.description.getD ""
    auto_approve := st.auto_approve.getD false
    approvers := st.approvers.getD [] }

/-- Embedding of `ApprovalWorkflowEngine.get_required_approvals`
(lines 80-96): keep, in configured order, every stage whose `required_for`
list contains the risk level. -/
def get_required_approvals (stages : List ApprovalStage)
    (risk_level : String) : List RequiredApproval :=
  (stages.filter fun st => (st.required_for.getD []).contains risk_level).map
    toRequiredApproval

/-- Embedding of `ApprovalWorkflowEngine._estimate_approval_time`
(lines 120-128): 2 hours per stage. -/
def estimate_approval_time (stages : List RequiredApproval) : String :=
  let hours := stages.length * 2
  if hours ≤ 4 then "Same day"
  else if hours ≤ 24 then "Within 24 hours"
  else toString (hours / 24) ++ " business days"

/-- The approval-chain dict returned by `create_approval_chain`. -/
structure ApprovalChain where
  requires_approval : Bool
  reason : Option String
  risk_level : Option String
  change_description : Option String
  approval_stages : List RequiredApproval
  estimated_approval_time : Option String
  workflow_id : Option String
  status : Option String
  note : Option String
  deriving Repr, DecidableEq

/-- Embedding of `ApprovalWorkflowEngine.create_approval_chain`
(lines 98-118); `now` stands for the timestamp used in the workflow id. -/
def create_approval_chain (stages : List ApprovalStage) (a : Analysis)
    (now : String) : ApprovalChain :=
  let risk_level := a.risk_level.getD "UNKNOWN"
  let required_approvals := get_required_approvals stages risk_level
  if required_approvals = [] then
    { requires_approval := false
      reason := some "Risk level does not require approval workflow"
      risk_level := none, change_description := none, approval_stages := []
      estimated_approval_time := none, workflow_id := none, status := none
      note := none }
  else
    { requires_approval := true
      reason := none
      risk_level := some risk_level
      change_description := a.change_description
      approval_stages := required_approvals
      estimated_approval_time := some (estimate_approval_time required_approvals)
      workflow_id := some ("WF-" ++ now)
      status := some "PENDING_APPROVAL"
      note := some "This is an advisory workflow. No automatic execution will occur." }

/-- A deployment configuration handed to the CI/CD validator.  `resources.limits`
and `healthCheck` are dicts whose only observed property is Python truthiness,
so an absent dict and an empty dict are both the empty list. -/
structure DeployConfig where
  replicas : Option Int
  resources_limits : List (String × String)
  healthCheck : List (String × String)
  environment : Option String
  deriving Repr, DecidableEq

/-- One issue or warning dict of `validate_deployment_config`. -/
structure Issue where
  severity : String
  field : String
  message : String
  recommendation : String
  deriving Repr, DecidableEq

/-- The `summary` sub-dict of a validation result. -/
structure ValidationSummary where
  total_issues : Nat
  total_warnings : Nat
  blocking_issues : Nat
  deriving Repr, DecidableEq

/-- The dict returned by `validate_deployment_config`. -/
structure ValidationResult where
  valid : Bool
  environment : String
  issues : List Issue
  warnings : List Issue
  summary : ValidationSummary
  recommendation : String
  deriving Repr, DecidableEq

/-- The HIGH replica-count issue of rule 1 (lines 144-150). -/
def replicaIssue (replicas : Int) : Issue :=
  { severity := "HIGH", field := "replicas"
    message := s!"Replica count ({replicas}) is below recommended minimum of 2"
    recommendation := "Increase replicas to at least 2 for high availability" }

/-- The MEDIUM replica-count warning of rule 1 (lines 151-157). -/
def replicaWarning (replicas : Int) : Issue :=
  { severity := "MEDIUM", field := "replicas"
    message := s!"Replica count ({replicas}) is below optimal count of 3"
    recommendation := "Consider increasing to 3 replicas for better fault tolerance" }

/-- The MEDIUM resource-limits warning of rule 2 (lines 163-169). -/
def limitsWarning : Issue :=
  { severity := "MEDIUM", field := "resources.limits"
    message := "No resource limits defined"
    recommendation := "Define CPU and memory limits to prevent resource exhaustion" }

/-- The MEDIUM health-check issue of rule 3 (lines 173-179). -/
def healthCheckIssue : Issue :=
  { severity := "MEDIUM", field := "healthCheck"
    message := "No health check configured"
    recommendation := "Add liveness and readiness probes" }

/-- The CRITICAL production issue of rule 4 (lines 183-189). -/
def productionIssue : Issue :=
  { severity := "CRITICAL", field := "environment"
    message := "Production deployment has blocking issues"
    recommendation := "Resolve all HIGH severity issues before production deployment" }

/-- Issue list accumulated by rules 1-3 of `validate_deployment_config`,
before the environment rule runs. -/
def deploymentIssuesPre (config : DeployConfig) : List Issue :=
  let replicas := config.replicas.getD 0
  (if replicas < 2 then [replicaIssue replicas] else []) ++
    (if config.healthCheck.isEmpty then [healthCheckIssue] else [])

/-- Warning list accumulated by rules 1-2 of `validate_deployment_config`. -/
def deploymentWarnings (config : DeployConfig) : List Issue :=
  let replicas := config.replicas.getD 0
  (if replicas < 2 then [] else if replicas < 3 then [replicaWarning replicas] else []) ++
    (if config.resources_limits.isEmpty then [limitsWarning] else [])

/-- Embedding of `CICDValidator.validate_deployment_config` (lines 137-202). -/
def validate_deployment_config (config : DeployConfig) : ValidationResult :=
  let environment := config.environment.getD "unknown"
  let issuesPre := deploymentIssuesPre config
  let issues :=
    if environment = "production" ∧ issuesPre.length > 0 then
      issuesPre ++ [productionIssue]
    else issuesPre
  let warnings := deploymentWarnings config
  { valid := issues.length = 0
    environment := environment
    issues := issues
    warnings := warnings
    summary :=
      { total_issues := issues.length
        total_warnings := warnings.length
        blocking_issues :=
          (issues.filter fun i => i.severity = "HIGH" ∨ i.severity = "CRITICAL").length }
    recommendation :=
      if issues.length > 0 then "BLOCK DEPLOYMENT"
      else if warnings.length > 0 then "PROCEED WITH CAUTION"
      else "APPROVED" }

/-- One requirement row of the fixed `stage_configs` table. -/
structure StageRequirements where
  min_replicas : Int
  require_health_check : Bool
  deriving Repr, DecidableEq

/-- Requirement set of the `production` row, also the fallback for
unrecognized stage names (line 212). -/
def prodRequirements : StageRequirements :=
  { min_replicas := 3, require_health_check := true }

/-- The fixed `stage_configs` table of `validate_pipeline_stage`
(lines 206-210). -/
def stage_configs : List (String × StageRequirements) :=
  [("dev", { min_replicas := 1, require_health_check := false }),
   ("staging", { min_replicas := 2, require_health_check := true }),
   ("production", prodRequirements)]

/-- One issue dict of `validate_pipeline_stage` (no field/recommendation). -/
structure StageIssue where
  severity : String
  message : String
  deriving Repr, DecidableEq

/-- Issue list of `validate_pipeline_stage` for a given requirement set
(lines 215-226). -/
def stageIssues (stage : String) (reqs : StageRequirements)
    (config : DeployConfig) : List StageIssue :=
  let mr := reqs.min_replicas
  (if config.replicas.getD 0 < mr then
     [{ severity := "HIGH", message := s!"{stage} requires at least {mr} replicas" }]
   else []) ++
    (if reqs.require_health_check ∧ config.healthCheck.isEmpty then
       [{ severity := "HIGH", message := s!"{stage} requires health check configuration" }]
     else [])

/-- The dict returned by `validate_pipeline_stage`. -/
structure StageValidationResult where
  stage : String
  valid : Bool
  issues : List StageIssue
  deriving Repr, DecidableEq

/-- Embedding of `CICDValidator.validate_pipeline_stage` (lines 204-232):
look the lowercased stage name up in the fixed table, falling back to the
production row. -/
def validate_pipeline_stage (stage : String) (config : DeployConfig) :
    StageValidationResult :=
  let reqs := (List.lookup (strLower stage) stage_configs).getD prodRequirements
  let issues := stageIssues stage reqs config
  { stage := stage, valid := issues.length = 0, issues := issues }

/-- Embedding of `ChangeImpactSimulatorServer.search_knowledge`
(lines 296-312). -/
def search_knowledge (kb : List (String × List KnowledgeItem))
    (query : String) : List SearchResult :=
  let q := strLower query
  kb.flatMap fun cat =>
    (cat.2.filter fun item =>
        strIn q (strLower (item.title.getD "")) || strIn q (strLower (item.content.getD ""))).map
      fun item => { category := cat.1, title := item.title, content := item.content }

/-- One row of `list_supported_changes`'s result. -/
structure SupportedChange where
  name : String
  description : String
  risk_level : String
  example_text : String
  deriving Repr, DecidableEq

/-- Embedding of `ChangeImpactSimulatorServer.list_supported_changes`
(lines 371-380). -/
def list_supported_changes (patterns : List (String × ChangePattern)) :
    List SupportedChange :=
  patterns.map fun np =>
    { name := np.1
      description := np.2.description.getD ""
      risk_level := np.2.risk_level.getD "MEDIUM"
      example_text := np.2.example_text.getD "" }

/-- The server's whole mutable state: the Rule Store loaded at startup plus
the metrics collector (`ChangeImpactSimulatorServer.__init__`). -/
structure Server where
  knowledge_base : List (String × List KnowledgeItem)
  change_patterns : List (String × ChangePattern)
  risk_definitions : List (String × RiskDef)
  workflow_stages : List ApprovalStage
  metrics : MetricsCollector
  deriving Repr, DecidableEq

/-- `search_knowledge` as a state transformer: the method reads the knowledge
base and touches nothing else. -/
def Server.search (s : Server) (query : String) : List SearchResult × Server :=
  (search_knowledge s.knowledge_base query, s)

/-- `list_supported_changes` as a state transformer. -/
def Server.listSupported (s : Server) : List SupportedChange × Server :=
  (list_supported_changes s.change_patterns, s)

/-- `validate_deployment_config` as a state transformer. -/
def Server.validateDeployment (s : Server) (config : DeployConfig) :
    ValidationResult × Server :=
  (validate_deployment_config config, s)

/-- `validate_pipeline_stage` as a state transformer. -/
def Server.validateStage (s : Server) (stage : String) (config : DeployConfig) :
    StageValidationResult × Server :=
  (validate_pipeline_stage stage config, s)

/-- `analyze_change` as a state transformer: the only method that writes to
the metrics collector. -/
def Server.analyze (s : Server) (now desc : String) : Analysis × Server :=
  let r := analyze_change s.change_patterns s.risk_definitions s.metrics now desc
  (r.1, { s with metrics := r.2 })

/-- `create_review_task` as a state transformer. -/
def Server.reviewTask (s : Server) (a : Analysis) (now : String) :
    ReviewTask × Server :=
  (create_review_task a now, s)

/-- `create_approval_workflow` as a state transformer (delegates to the
workflow engine's `create_approval_chain`). -/
def Server.approvalWorkflow (s : Server) (a : Analysis) (now : String) :
    ApprovalChain × Server :=
  (create_approval_chain s.workflow_stages a now, s)

/-- `total = len(self.analyses)` from `get_statistics` (line 55). -/
def total_analyses (m : MetricsCollector) : Nat :=
  m.analyses.length

/-- One externally invokable tool call, as dispatched by `call_tool`
(lines 506-555).  `get_analysis_statistics` reads the metrics without
writing them. -/
inductive Op where
  | searchKnowledge (query : String)
  | analyzeChange (now desc : String)
  | createReviewTask (a : Analysis) (now : String)
  | listSupportedChanges
  | getAnalysisStatistics
  | createApprovalWorkflow (a : Analysis) (now : String)
  | validateDeploymentConfig (config : DeployConfig)
  | validatePipelineStage (stage : String) (config : DeployConfig)

/-- Post-state of one tool call.  Only `analyze_change` writes server state;
every other tool is a pure read. -/
def applyOp (s : Server) : Op → Server
  | .searchKnowledge q => (s.search q).2
  | .analyzeChange now desc => (s.analyze now desc).2
  | .createReviewTask a now => (s.reviewTask a now).2
  | .listSupportedChanges => s.listSupported.2
  | .getAnalysisStatistics => s
  | .createApprovalWorkflow a now => (s.approvalWorkflow a now).2
  | .validateDeploymentConfig c => (s.validateDeployment c).2
  | .validatePipelineStage st c => (s.validateStage st c).2

/-! Concrete fixtures used by witnesses and counterexamples. -/

/-- Freshly constructed metrics state, as in `MetricsCollector.__init__`. -/
def emptyMetrics : MetricsCollector :=
  { analyses := [], risk_distribution := [], pattern_usage := [] }

/-- Sample pattern ordered before the scale-down pattern. -/
def increasePattern : ChangePattern :=
  { keywords := some ["increase replicas", "scale up"]
    risk_level := some "MEDIUM"
    impacts := some [], safe_conditions := some [], safeguards := some []
    description := some "Increase replica count"
    example_text := some "increase replicas from 2 to 5" }

/-- Sample HIGH-risk pattern matching the demo query. -/
def scaleDownPattern : ChangePattern :=
  { keywords := some ["reduce replicas", "decrease replicas"]
    risk_level := some "HIGH"
    impacts := some ["Reduced fault tolerance"]
    safe_conditions := some ["Traffic is low"]
    safeguards := some ["Snapshot before change"]
    description := some "Scale down replicas"
    example_text := some "reduce replicas from 3 to 1" }

/-- Sample approval stage required for HIGH and CRITICAL changes. -/
def teamLeadStage : ApprovalStage :=
  { name := some "team_lead", description := some "Team lead review"
    auto_approve := some false, approvers := some ["lead"]
    required_for := some ["HIGH", "CRITICAL"] }

/-- Sample approval stage required only for CRITICAL changes. -/
def sreStage : ApprovalStage :=
  { name := some "sre", description := none, auto_approve := none
    approvers := none, required_for := some ["CRITICAL"] }

/-- Sample configured stage list. -/
def demoStages : List ApprovalStage := [teamLeadStage, sreStage]

/-- Freshly started server over a small concrete Rule Store. -/
def demoServer : Server :=
  { knowledge_base :=
      [("scaling", [{ title := some "Replica guidance"
                      content := some "Keep at least 2 replicas" }])]
    change_patterns :=
      [("increase_replicas", increasePattern),
       ("scale_down_replicas", scaleDownPattern)]
    risk_definitions := [("HIGH", [("description", "High risk")])]
    workflow_stages := demoStages
    metrics := emptyMetrics }

/-- Sample analysis record carrying a CRITICAL risk level. -/
def critAnalysis : Analysis :=
  { timestamp := none, change_description := some "drop the primary database"
    matched_pattern := none, risk_level := some "CRITICAL", impact := none
    safe_conditions := none, safeguards := none, risk_definition := none
    requires_manual_review := none, message := none, recommendation := none }

/-- Sample production deployment configuration with a single replica and no
health check. -/
def badProdConfig : DeployConfig :=
  { replicas := some 1, resources_limits := [], healthCheck := []
    environment := some "production" }

/-- Sample healthy staging deployment configuration. -/
def goodConfig : DeployConfig :=
  { replicas := some 3, resources_limits := [("cpu", "1")]
    healthCheck := [("liveness", "ok")], environment := some "staging" }

/-! Helper lemmas. -/

/-- Reading any counter never shrinks across a `defaultdict` bump. -/
theorem countOf_bumpCount_le (k k' : String) (l : List (String × Nat)) :
    countOf l k' ≤ countOf (bumpCount k l) k' := by
  induction l with
  | nil => exact Nat.zero_le _
  | cons hd tl ih =>
    obtain ⟨k0, v⟩ := hd
    by_cases h : k0 = k
    · simp only [bumpCount, countOf]
      rw [if_pos h]
      by_cases h' : k0 = k'
      · simp only [countOf]
        rw [if_pos h', if_pos h']
        exact Nat.le_succ v
      · simp only [countOf]
        rw [if_neg h', if_neg h']
    · simp only [bumpCount, countOf]
      rw [if_neg h]
      by_cases h' : k0 = k'
      · simp only [countOf]
        rw [if_pos h', if_pos h']
      · simp only [countOf]
        rw [if_neg h', if_neg h']
        exact ih

/-- When no pattern in the store matches the text, the first-match scan
returns `none`. -/
theorem findMatch_eq_none_of_no_match (patterns : List (String × ChangePattern))
    (text : String) (h : ∀ np ∈ patterns, patternMatches np.2 text = false) :
    findMatch patterns text = none := by
  induction patterns with
  | nil => rfl
  | cons hd tl ih =>
    obtain ⟨name, p⟩ := hd
    have h0 : patternMatches p text = false := h (name, p) (List.mem_cons_self _ _)
    simp [findMatch, h0]
    exact ih fun np hnp => h np (List.mem_cons_of_mem _ hnp)

/-- The first-match scan skips a non-matching block of patterns. -/
theorem findMatch_append_of_no_match (pre rest : List (String × ChangePattern))
    (text : String) (h : ∀ np ∈ pre, patternMatches np.2 text = false) :
    findMatch (pre ++ rest) text = findMatch rest text := by
  induction pre with
  | nil => rfl
  | cons hd tl ih =>
    obtain ⟨name, p⟩ := hd
    have h0 : patternMatches p text = false := h (name, p) (List.mem_cons_self _ _)
    simp [findMatch, h0]
    exact ih fun np hnp => h np (List.mem_cons_of_mem _ hnp)

example : strIn "scale" "rescaled" = true := by decide
example : strIn "x" "" = false := by decide
example : strIn "" "anything" = true := by decide

/-! Claim theorems. -/

/-- C9: `search`, `list_supported_changes` and `validate_deployment_config`
leave the server state unchanged, and calling each a second time with the same
input yields the same result. -/
theorem C9_reads_pure_and_idempotent (s : Server) (q : String) (c : DeployConfig) :
    (s.search q).2 = s ∧
    ((s.search q).2.search q).1 = (s.search q).1 ∧
    s.listSupported.2 = s ∧
    (s.listSupported.2.listSupported).1 = s.listSupported.1 ∧
    (s.validateDeployment c).2 = s ∧
    ((s.validateDeployment c).2.validateDeployment c).1 = (s.validateDeployment c).1 :=
  ⟨rfl, rfl, rfl, rfl, rfl, rfl⟩

/-- C10: across any single tool call, the total analysis count, every
risk-distribution counter and every pattern-usage counter of the metrics
collector are non-decreasing. -/
theorem C10_metrics_monotone (s : Server) (op : Op) (k p : String) :
    total_analyses s.metrics ≤ total_analyses (applyOp s op).metrics ∧
    countOf s.metrics.risk_distribution k ≤
      countOf (applyOp s op).metrics.risk_distribution k ∧
    countOf s.metrics.pattern_usage p ≤
      countOf (applyOp s op).metrics.pattern_usage p := by
  cases op with
  | analyzeChange now desc =>
    simp only [applyOp, Server.analyze, analyze_change]
    cases hm : findMatch s.change_patterns (strLower desc) with
    | none => simp
    | some np =>
      obtain ⟨name, pat⟩ := np
      simp only [record_analysis, total_analyses, List.length_append]
      refine ⟨by omega, countOf_bumpCount_le _ _ _, ?_⟩
      by_cases hname : name = ""
      · simp [hname]
      · simp only [hname, if_false, ite_false]
        exact countOf_bumpCount_le _ _ _
  | searchKnowledge q => exact ⟨Nat.le_refl _, Nat.le_refl _, Nat.le_refl _⟩
  | createReviewTask a now => exact ⟨Nat.le_refl _, Nat.le_refl _, Nat.le_refl _⟩
  | listSupportedChanges => exact ⟨Nat.le_refl _, Nat.le_refl _, Nat.le_refl _⟩
  | getAnalysisStatistics => exact ⟨Nat.le_refl _, Nat.le_refl _, Nat.le_refl _⟩
  | createApprovalWorkflow a now => exact ⟨Nat.le_refl _, Nat.le_refl _, Nat.le_refl _⟩
  | validateDeploymentConfig c => exact ⟨Nat.le_refl _, Nat.le_refl _, Nat.le_refl _⟩
  | validatePipelineStage st c => exact ⟨Nat.le_refl _, Nat.le_refl _, Nat.le_refl _⟩

/-- C3: `create_review_task` creates a task exactly for HIGH and CRITICAL
records; when a task is created its priority is HIGH exactly for CRITICAL
records and MEDIUM otherwise; an absent risk level behaves as UNKNOWN and
creates no task. -/
theorem C3_review_task (a : Analysis) (now : String) :
    ((create_review_task a now).task_created = true ↔
      (a.risk_level = some "HIGH" ∨ a.risk_level = some "CRITICAL")) ∧
    ((create_review_task a now).task_created = true →
      ((create_review_task a now).priority = some "HIGH" ↔
        a.risk_level = some "CRITICAL")) ∧
    ((create_review_task a now).task_created = true →
      ((create_review_task a now).priority = some "MEDIUM" ↔
        ¬a.risk_level = some "CRITICAL")) ∧
    (a.risk_level = none → (create_review_task a now).task_created = false) := by
  cases hrl : a.risk_level with
  | none => simp [create_review_task, hrl]
  | some rl =>
    by_cases hH : rl = "HIGH"
    · subst hH
      simp [create_review_task, hrl]
    · by_cases hC : rl = "CRITICAL"
      · subst hC
        simp [create_review_task, hrl]
      · simp [create_review_task, hrl, hH, hC]

/-- Witness for C3 at a concrete CRITICAL analysis record. -/
theorem C3_review_task_witness :
    (create_review_task critAnalysis "2024-01-01T00:00:00").task_created = true ∧
    (create_review_task critAnalysis "2024-01-01T00:00:00").priority = some "HIGH" := by
  have h := C3_review_task critAnalysis "2024-01-01T00:00:00"
  have ht : (create_review_task critAnalysis "2024-01-01T00:00:00").task_created = true :=
    h.1.mpr (Or.inr rfl)
  exact ⟨ht, (h.2.1 ht).mpr rfl⟩

/-- C1 (counterexample): on a concrete server whose patterns contain no
keyword of the text "hello world", `analyze` returns risk_level UNKNOWN, yet
the UNKNOWN risk-distribution counter stays at 0 instead of incrementing to 1:
the no-match branch of `analyze_change` returns before `record_analysis`. -/
theorem C1_unknown_counter_counterexample :
    (demoServer.analyze "2024-01-01T00:00:00" "hello world").1.risk_level =
      some "UNKNOWN" ∧
    countOf demoServer.metrics.risk_distribution "UNKNOWN" = 0 ∧
    countOf (demoServer.analyze "2024-01-01T00:00:00" "hello world").2.metrics.risk_distribution
      "UNKNOWN" = 0 := by
  refine ⟨rfl, rfl, rfl⟩

/-- C1 (amended): when no configured pattern's keyword occurs in the change
description (case-insensitive substring), `analyze` returns risk_level UNKNOWN
and leaves the server state, metrics included, entirely unchanged: the UNKNOWN
counter does not increment because the no-match branch never reaches
`record_analysis`. -/
theorem C1_unknown_leaves_metrics_unchanged (s : Server) (now desc : String)
    (h : ∀ np ∈ s.change_patterns, ∀ kw ∈ np.2.keywords.getD [],
      strIn (strLower kw) (strLower desc) = false) :
    (s.analyze now desc).1.risk_level = some "UNKNOWN" ∧
    (s.analyze now desc).2 = s := by
  have hnone : findMatch s.change_patterns (strLower desc) = none := by
    refine findMatch_eq_none_of_no_match _ _ fun np hnp => ?_
    simp only [patternMatches, List.any_eq_false]
    intro kw hkw
    simp [h np hnp kw hkw]
  constructor
  · simp [Server.analyze, analyze_change, hnone]
  · simp [Server.analyze, analyze_change, hnone]

/-- Witness for the amended C1 at a concrete server and text. -/
theorem C1_unknown_leaves_metrics_unchanged_witness :
    (demoServer.analyze "2024-01-01T00:00:00" "hello world").1.risk_level =
      some "UNKNOWN" ∧
    (demoServer.analyze "2024-01-01T00:00:00" "hello world").2 = demoServer :=
  C1_unknown_leaves_metrics_unchanged demoServer "2024-01-01T00:00:00" "hello world"
    (by decide)

/-- C2: when the change description contains a keyword of pattern P
(case-insensitive substring) and no keyword of any earlier-ordered pattern,
`analyze` reports P's name as the matched pattern and P's configured risk
level. -/
theorem C2_first_match_wins (s : Server) (now desc : String)
    (pre post : List (String × ChangePattern)) (name : String)
    (P : ChangePattern) (rl : String)
    (hstore : s.change_patterns = pre ++ (name, P) :: post)
    (hpre : ∀ np ∈ pre, ∀ kw ∈ np.2.keywords.getD [],
      strIn (strLower kw) (strLower desc) = false)
    (hP : ∃ kw ∈ P.keywords.getD [], strIn (strLower kw) (strLower desc) = true)
    (hrl : P.risk_level = some rl) :
    (s.analyze now desc).1.matched_pattern = some name ∧
    (s.analyze now desc).1.risk_level = some rl := by
  have hPm : patternMatches P (strLower desc) = true := by
    simp only [patternMatches, List.any_eq_true]
    obtain ⟨kw, hkw, hin⟩ := hP
    exact ⟨kw, hkw, hin⟩
  have hfind : findMatch s.change_patterns (strLower desc) = some (name, P) := by
    rw [hstore, findMatch_append_of_no_match]
    · simp [findMatch, hPm]
    · intro np hnp
      simp only [patternMatches, List.any_eq_false]
      intro kw hkw
      simp [hpre np hnp kw hkw]
  constructor <;> simp [Server.analyze, analyze_change, hfind, hrl]

/-- Witness for C2: the demo query matches the second configured pattern while
missing every keyword of the first. -/
theorem C2_first_match_wins_witness :
    (demoServer.analyze "2024-01-01T00:00:00"
        "What happens if I reduce replicas from 3 to 1?").1.matched_pattern =
      some "scale_down_replicas" ∧
    (demoServer.analyze "2024-01-01T00:00:00"
        "What happens if I reduce replicas from 3 to 1?").1.risk_level =
      some "HIGH" :=
  C2_first_match_wins demoServer "2024-01-01T00:00:00"
    "What happens if I reduce replicas from 3 to 1?"
    [("increase_replicas", increasePattern)] [] "scale_down_replicas"
    scaleDownPattern "HIGH" rfl (by decide) (by decide) rfl

/-- C4: `create_approval_chain` requires no approval exactly when no
configured stage's `required_for` contains the record's risk level; otherwise
the returned stage list is exactly the configured-order subsequence of stages
whose `required_for` contains that risk level. -/
theorem C4_approval_chain (stages : List ApprovalStage) (a : Analysis)
    (now : String) :
    ((create_approval_chain stages a now).requires_approval = false ↔
      ∀ st ∈ stages, a.risk_level.getD "UNKNOWN" ∉ st.required_for.getD []) ∧
    ((create_approval_chain stages a now).requires_approval = true →
      (create_approval_chain stages a now).approval_stages =
        (stages.filter fun st =>
            (st.required_for.getD []).contains (a.risk_level.getD "UNKNOWN")).map
          toRequiredApproval) := by
  have hiff : get_required_approvals stages (a.risk_level.getD "UNKNOWN") = [] ↔
      ∀ st ∈ stages, a.risk_level.getD "UNKNOWN" ∉ st.required_for.getD [] := by
    simp [get_required_approvals, List.filter_eq_nil_iff]
  by_cases h : get_required_approvals stages (a.risk_level.getD "UNKNOWN") = []
  · refine ⟨?_, fun hreq => ?_⟩
    · simp only [create_approval_chain, if_pos h]
      simpa using hiff.mp h
    · simp only [create_approval_chain, if_pos h] at hreq
      cases hreq
  · refine ⟨?_, fun _ => ?_⟩
    · simp only [create_approval_chain, if_neg h]
      simpa using fun hall => h (hiff.mpr hall)
    · simp only [create_approval_chain, if_neg h]
      simp [get_required_approvals]

/-- Witness for C4 at a CRITICAL record: both demo stages are selected, in
configured order. -/
theorem C4_approval_chain_witness :
    (create_approval_chain demoStages critAnalysis
        "2024-01-01T00:00:00").approval_stages =
      [toRequiredApproval teamLeadStage, toRequiredApproval sreStage] := by
  have h :=
    (C4_approval_chain demoStages critAnalysis "2024-01-01T00:00:00").2 (by decide)
  rw [h]
  decide

/-- C5 (amended): for a nonempty required-stage list of length n, the
estimated approval time is computed from hours = 2·n: at most 4 hours gives
"Same day", between 5 and 24 hours gives "Within 24 hours", and more gives
"⌊hours/24⌋ business days"; the first two strings are capitalized, unlike the
lowercase quotes of the claim. -/
theorem C5_estimated_time (stages : List ApprovalStage) (a : Analysis)
    (now : String) (n : Nat)
    (hn : n = (get_required_approvals stages (a.risk_level.getD "UNKNOWN")).length)
    (hpos : 0 < n) :
    (2 * n ≤ 4 →
      (create_approval_chain stages a now).estimated_approval_time =
        some "Same day") ∧
    (4 < 2 * n → 2 * n ≤ 24 →
      (create_approval_chain stages a now).estimated_approval_time =
        some "Within 24 hours") ∧
    (24 < 2 * n →
      (create_approval_chain stages a now).estimated_approval_time =
        some (toString (2 * n / 24) ++ " business days")) := by
  have hreq : ¬get_required_approvals stages (a.risk_level.getD "UNKNOWN") = [] := by
    intro h0
    rw [h0] at hn
    simp at hn
    omega
  simp only [create_approval_chain, if_neg hreq, estimate_approval_time, ← hn]
  have hc : n * 2 = 2 * n := Nat.mul_comm n 2
  refine ⟨fun h1 => ?_, fun h1 h2 => ?_, fun h1 => ?_⟩
  · rw [if_pos (by omega : n * 2 ≤ 4)]
  · rw [if_neg (by omega : ¬n * 2 ≤ 4), if_pos (by omega : n * 2 ≤ 24)]
  · rw [if_neg (by omega : ¬n * 2 ≤ 4), if_neg (by omega : ¬n * 2 ≤ 24), hc]

/-- Witness for C5: two required stages give 4 hours, hence "Same day". -/
theorem C5_estimated_time_witness :
    (create_approval_chain demoStages critAnalysis
        "2024-01-01T00:00:00").estimated_approval_time = some "Same day" :=
  (C5_estimated_time demoStages critAnalysis "2024-01-01T00:00:00" 2 (by decide)
    (by decide)).1 (by decide)

/-- C5 (counterexample): at a concrete chain with two required stages (4
hours), the estimated approval time is the capitalized string "Same day", not
the claim's quoted string "same day". -/
theorem C5_estimated_time_counterexample :
    (create_approval_chain demoStages critAnalysis
        "2024-01-02T00:00:00").estimated_approval_time = some "Same day" ∧
    ¬(create_approval_chain demoStages critAnalysis
        "2024-01-02T00:00:00").estimated_approval_time = some "same day" := by
  exact ⟨rfl, by decide⟩

/-- Issue list of a validation result: the rules 1-3 accumulation, extended by
the production rule when its guard holds. -/
theorem vdc_issues_eq (config : DeployConfig) :
    (validate_deployment_config config).issues =
      if config.environment.getD "unknown" = "production" ∧
          (deploymentIssuesPre config).length > 0 then
        deploymentIssuesPre config ++ [productionIssue]
      else deploymentIssuesPre config := rfl

/-- Warning list of a validation result. -/
theorem vdc_warnings_eq (config : DeployConfig) :
    (validate_deployment_config config).warnings = deploymentWarnings config := rfl

/-- Validity flag of a validation result. -/
theorem vdc_valid_eq (config : DeployConfig) :
    (validate_deployment_config config).valid =
      decide ((validate_deployment_config config).issues.length = 0) := rfl

/-- Recommendation of a validation result. -/
theorem vdc_recommendation_eq (config : DeployConfig) :
    (validate_deployment_config config).recommendation =
      if (validate_deployment_config config).issues.length > 0 then
        "BLOCK DEPLOYMENT"
      else if (deploymentWarnings config).length > 0 then "PROCEED WITH CAUTION"
      else "APPROVED" := rfl

/-- Issues on the `replicas` field are exactly the rule-1 HIGH issue, present
exactly when the replica count is below 2. -/
theorem vdc_filter_replica_issues (config : DeployConfig) :
    (validate_deployment_config config).issues.filter
        (fun i => i.field = "replicas") =
      if config.replicas.getD 0 < 2 then [replicaIssue (config.replicas.getD 0)]
      else [] := by
  rw [vdc_issues_eq]
  simp only [deploymentIssuesPre]
  split_ifs <;>
    simp [List.filter_append, replicaIssue, healthCheckIssue, productionIssue]

/-- Warnings on the `replicas` field are exactly the rule-1 MEDIUM warning,
present exactly when the replica count is 2. -/
theorem vdc_filter_replica_warnings (config : DeployConfig) :
    (validate_deployment_config config).warnings.filter
        (fun i => i.field = "replicas") =
      if config.replicas.getD 0 < 2 then []
      else if config.replicas.getD 0 < 3 then
        [replicaWarning (config.replicas.getD 0)]
      else [] := by
  rw [vdc_warnings_eq]
  simp only [deploymentWarnings]
  split_ifs <;> simp [List.filter_append, replicaWarning, limitsWarning]

/-- C6: the replica rule is exclusive: below 2 replicas there is exactly one
HIGH issue on field "replicas" and no replica warning; exactly 2 replicas give
exactly one MEDIUM warning and no replica issue; 3 or more give neither; an
absent replicas field counts as 0 and hence yields the HIGH issue. -/
theorem C6_replica_rule (config : DeployConfig) :
    (replicaIssue (config.replicas.getD 0)).severity = "HIGH" ∧
    (replicaWarning (config.replicas.getD 0)).severity = "MEDIUM" ∧
    (config.replicas.getD 0 < 2 →
      (validate_deployment_config config).issues.filter
          (fun i => i.field = "replicas") =
        [replicaIssue (config.replicas.getD 0)] ∧
      (validate_deployment_config config).warnings.filter
          (fun i => i.field = "replicas") = []) ∧
    (2 ≤ config.replicas.getD 0 → config.replicas.getD 0 < 3 →
      (validate_deployment_config config).issues.filter
          (fun i => i.field = "replicas") = [] ∧
      (validate_deployment_config config).warnings.filter
          (fun i => i.field = "replicas") =
        [replicaWarning (config.replicas.getD 0)]) ∧
    (3 ≤ config.replicas.getD 0 →
      (validate_deployment_config config).issues.filter
          (fun i => i.field = "replicas") = [] ∧
      (validate_deployment_config config).warnings.filter
          (fun i => i.field = "replicas") = []) ∧
    (config.replicas = none →
      (validate_deployment_config config).issues.filter
          (fun i => i.field = "replicas") = [replicaIssue 0]) := by
  refine ⟨rfl, rfl, fun h => ?_, fun h2 h3 => ?_, fun h3 => ?_, fun hnone => ?_⟩
  · rw [vdc_filter_replica_issues, vdc_filter_replica_warnings]
    rw [if_pos h, if_pos h]
    exact ⟨rfl, rfl⟩
  · rw [vdc_filter_replica_issues, vdc_filter_replica_warnings]
    rw [if_neg (by omega), if_neg (by omega), if_pos h3]
    exact ⟨rfl, rfl⟩
  · rw [vdc_filter_replica_issues, vdc_filter_replica_warnings]
    rw [if_neg (by omega), if_neg (by omega), if_neg (by omega)]
    exact ⟨rfl, rfl⟩
  · rw [vdc_filter_replica_issues]
    rw [hnone]
    rfl

/-- Witness for C6: one replica in the sample production config yields the
single HIGH replica issue. -/
theorem C6_replica_rule_witness :
    (validate_deployment_config badProdConfig).issues.filter
        (fun i => i.field = "replicas") = [replicaIssue 1] :=
  ((C6_replica_rule badProdConfig).2.2.1 (by decide)).1

/-- C7: a production deployment whose first three rules produced an issue gets
an extra CRITICAL issue appended and is blocked; in general the result is
valid exactly when the issue list is empty, and the recommendation is "BLOCK
DEPLOYMENT" given any issue, else "PROCEED WITH CAUTION" given any warning,
else "APPROVED". -/
theorem C7_production_block (config : DeployConfig) :
    productionIssue.severity = "CRITICAL" ∧
    (config.environment.getD "unknown" = "production" →
      deploymentIssuesPre config ≠ [] →
      (validate_deployment_config config).issues =
        deploymentIssuesPre config ++ [productionIssue] ∧
      (validate_deployment_config config).recommendation = "BLOCK DEPLOYMENT") ∧
    ((validate_deployment_config config).valid = true ↔
      (validate_deployment_config config).issues = []) ∧
    ((validate_deployment_config config).issues ≠ [] →
      (validate_deployment_config config).recommendation = "BLOCK DEPLOYMENT") ∧
    ((validate_deployment_config config).issues = [] →
      (validate_deployment_config config).warnings ≠ [] →
      (validate_deployment_config config).recommendation = "PROCEED WITH CAUTION") ∧
    ((validate_deployment_config config).issues = [] →
      (validate_deployment_config config).warnings = [] →
      (validate_deployment_config config).recommendation = "APPROVED") := by
  refine ⟨rfl, fun henv hpre => ?_, ?_, fun hne => ?_, fun he hw => ?_, fun he hw => ?_⟩
  · have hlen : (deploymentIssuesPre config).length > 0 :=
      List.length_pos.mpr hpre
    have hif := vdc_issues_eq config
    rw [if_pos ⟨henv, hlen⟩] at hif
    refine ⟨hif, ?_⟩
    rw [vdc_recommendation_eq, hif, if_pos (by simp)]
  · rw [vdc_valid_eq]
    simp [List.length_eq_zero]
  · rw [vdc_recommendation_eq, if_pos (List.length_pos.mpr hne)]
  · rw [vdc_recommendation_eq, he]
    rw [vdc_warnings_eq] at hw
    rw [if_neg (by simp), if_pos (List.length_pos.mpr hw)]
  · rw [vdc_recommendation_eq, he]
    rw [vdc_warnings_eq] at hw
    rw [if_neg (by simp), hw]
    rfl

/-- Witness for C7: the sample bad production config is blocked with the
CRITICAL issue appended after the rule 1-3 issues. -/
theorem C7_production_block_witness :
    (validate_deployment_config badProdConfig).issues =
      deploymentIssuesPre badProdConfig ++ [productionIssue] ∧
    (validate_deployment_config badProdConfig).recommendation =
      "BLOCK DEPLOYMENT" :=
  (C7_production_block badProdConfig).2.1 (by decide) (by decide)

/-- C8: `validate_pipeline_stage` is valid exactly when it found no issue;
every issue it produces is HIGH severity, one per unmet requirement of the
looked-up requirement row; the fixed table maps dev to 1 replica with no
health check, staging to 2 with health check, production to 3 with health
check; and any stage name outside the table (after lowercasing) falls back to
the production requirements. -/
theorem C8_pipeline_stage (stage : String) (config : DeployConfig) :
    ((validate_pipeline_stage stage config).valid = true ↔
      (validate_pipeline_stage stage config).issues = []) ∧
    (∀ i ∈ (validate_pipeline_stage stage config).issues, i.severity = "HIGH") ∧
    (List.lookup "dev" stage_configs =
        some { min_replicas := 1, require_health_check := false } ∧
      List.lookup "staging" stage_configs =
        some { min_replicas := 2, require_health_check := true } ∧
      List.lookup "production" stage_configs = some prodRequirements) ∧
    ((validate_pipeline_stage stage config).issues.length =
      (if config.replicas.getD 0 <
          ((List.lookup (strLower stage) stage_configs).getD
            prodRequirements).min_replicas then 1 else 0) +
      (if ((List.lookup (strLower stage) stage_configs).getD
            prodRequirements).require_health_check ∧ config.healthCheck.isEmpty
        then 1 else 0)) ∧
    (strLower stage ≠ "dev" → strLower stage ≠ "staging" →
      strLower stage ≠ "production" →
      (validate_pipeline_stage stage config).issues =
        stageIssues stage prodRequirements config) := by
  refine ⟨?_, ?_, ⟨rfl, rfl, rfl⟩, ?_, fun h1 h2 h3 => ?_⟩
  · rw [show (validate_pipeline_stage stage config).valid =
        decide ((validate_pipeline_stage stage config).issues.length = 0) from rfl]
    simp [List.length_eq_zero]
  · intro i hi
    simp only [validate_pipeline_stage, stageIssues, List.mem_append] at hi
    rcases hi with hi | hi <;> split_ifs at hi <;> simp_all
  · show (stageIssues stage _ config).length = _
    simp only [stageIssues, List.length_append]
    split_ifs <;> simp
  · have e1 : (strLower stage == "dev") = false := beq_eq_false_iff_ne.mpr h1
    have e2 : (strLower stage == "staging") = false := beq_eq_false_iff_ne.mpr h2
    have e3 : (strLower stage == "production") = false := beq_eq_false_iff_ne.mpr h3
    show (stageIssues stage
        ((List.lookup (strLower stage) stage_configs).getD prodRequirements)
        config) = _
    rw [show List.lookup (strLower stage) stage_configs = none by
      simp [stage_configs, List.lookup, e1, e2, e3]]
    rfl

/-- Witness for C8: the unrecognized stage name "qa" is validated against the
production requirements, which the healthy sample config meets. -/
theorem C8_pipeline_stage_witness :
    (validate_pipeline_stage "qa" goodConfig).issues =
      stageIssues "qa" prodRequirements goodConfig :=
  (C8_pipeline_stage "qa" goodConfig).2.2.2.2 (by decide) (by decide) (by decide)

end ChangeImpact
